import Mathlib

/-!
MulticastConfigurator: static IPv4 multicast route installation.

A shallow embedding of `MulticastConfigurator::addMulticastRoute`
(`src/eg_clone/mcast/MulticastConfigurator.cc`, lines 91-205) together with the
collaborators it calls (address parsing, the interface table, the string
tokenizer, the multicast route object and the routing table), followed by the
properties of the installer.

The module instance is the record of its five string parameters, which are
`std::string` values and may hold NUL characters; where the source hands
`s.c_str()` to a library function, the function receives the text before the
first NUL only. The cached
pointers `ift` and `rt` are passed explicitly, and the call returns the routing
table after the call, the diagnostic records it emitted and the exception it
threw, if any.
-/

namespace inet

/-! ## Strings -/

/-- The `std::string::empty()` test. -/
def empty (s : String) : Bool :=
  s.data.isEmpty

/-- The NUL character, which ends a C string. -/
def nul : Char :=
  Char.ofNat 0

/-- The C string `s.c_str()` as a callee reads it: the characters of `s` before its
first NUL character. -/
def c_str (s : String) : String :=
  String.mk (s.data.takeWhile (fun c => c != nul))

/-- The test `s.rfind(pat, 0) == 0`: the last occurrence of `pat` that begins at
position 0 or before exists, which is to say that `s` starts with `pat`. -/
def rfindAtZero (s pat : String) : Bool :=
  pat.data.isPrefixOf s.data

/-! ## Addresses -/

/-- Modelled from the spec: the `Ipv4Address` type of the INET library is not part
of the sources; an address is its 32-bit value. -/
structure Ipv4Address where
  addr : Nat
deriving DecidableEq, Repr

/-- The default-constructed (unspecified) address. -/
def Ipv4Address.unspecified : Ipv4Address :=
  ⟨0⟩

/-- Cuts a character sequence at every dot; the pieces are the text between dots. -/
def splitDots : List Char → List (List Char)
  | [] => [[]]
  | c :: cs =>
    if c = '.' then [] :: splitDots cs
    else
      match splitDots cs with
      | [] => [[c]]
      | f :: fs => (c :: f) :: fs

/-- The value of a sequence of decimal digits. -/
def decimalValue (ds : List Char) : Nat :=
  ds.foldl (fun n d => 10 * n + (d.toNat - 48)) 0

/-- One field of a dotted-decimal address: a non-empty run of decimal digits whose
value is at most 255. -/
def parseOctet (f : List Char) : Option Nat :=
  if !f.isEmpty && f.all Char.isDigit && decide (decimalValue f ≤ 255) then
    some (decimalValue f)
  else none

/-- Modelled from the spec: the constructor `Ipv4Address(const char *)` of the INET
library is not part of the sources; "addresses are parsed in standard
dotted-decimal IPv4 textual form", four fields separated by dots. The result is
`none` where the constructor raises its invalid-address error. The argument is a
`const char *`: callers pass the C string. -/
def Ipv4Address.ofText (text : String) : Option Ipv4Address :=
  match (splitDots text.data).map parseOctet with
  | [some a, some b, some c, some d] =>
    some ⟨a * 16777216 + b * 65536 + c * 256 + d⟩
  | _ => none

/-! ## Interface table -/

/-- Modelled from the spec: the `InterfaceEntry` class of the INET library is not
part of the sources; an interface has a name, a numeric id and an up/down
status. -/
structure InterfaceEntry where
  name : String
  interfaceId : Int
  up : Bool
deriving DecidableEq, Repr

/-- The getter `getInterfaceName()`: it returns a `const char *`, the name of the
interface as a C string. -/
def InterfaceEntry.interfaceName (ie : InterfaceEntry) : String :=
  c_str ie.name

/-- An `InterfaceEntry *` handed out by the interface table: the slot of the table
the pointer refers to, together with the entry stored there. Two pointers into
one table are equal exactly when their slots are. -/
structure InterfaceRef where
  slot : Nat
  entry : InterfaceEntry
deriving DecidableEq, Repr

/-- Modelled from the spec: the `InterfaceTable` class of the INET library is not
part of the sources; the inventory is the sequence of its interfaces in
enumeration order (`count()`, `get(i)`). -/
abbrev InterfaceTable := List InterfaceEntry

/-- The pointers to the entries of a list that starts at slot `i`. -/
def refsFrom : Nat → List InterfaceEntry → List InterfaceRef
  | _, [] => []
  | i, ie :: rest => ⟨i, ie⟩ :: refsFrom (i + 1) rest

/-- The sequence `getInterface(0), ..., getInterface(getNumInterfaces() - 1)`. -/
def InterfaceTable.refs (ift : InterfaceTable) : List InterfaceRef :=
  refsFrom 0 ift

/-- Modelled from the spec: `findInterfaceByName` of the INET library is not part
of the sources; "exact, case-sensitive match against interface names in the
inventory; returns the first match", and `none` (the null pointer) when no
interface carries the name. The argument is a `const char *`: callers pass the C
string. -/
def InterfaceTable.findInterfaceByName (ift : InterfaceTable) (name : String) :
    Option InterfaceRef :=
  ift.refs.find? (fun p => decide (p.entry.interfaceName = name))

/-! ## Tokenizer -/

/-- The characters that separate tokens: whitespace, that is the space, the tab,
the carriage return and the line feed. -/
def isDelimiter (c : Char) : Bool :=
  c.isWhitespace

/-- Scans the characters once; `cur` holds the characters of the token being read,
latest first. -/
def tokenizeAux : List Char → List Char → List String
  | [], cur => if cur.isEmpty then [] else [String.mk cur.reverse]
  | c :: cs, cur =>
    if isDelimiter c then
      if cur.isEmpty then tokenizeAux cs []
      else String.mk cur.reverse :: tokenizeAux cs []
    else tokenizeAux cs (c :: cur)

/-- Modelled from the spec: `cStringTokenizer` of the OMNeT++ library is not part
of the sources; the text is "split on whitespace into tokens". The result is the
sequence of values that successive `nextToken()` calls return before the null
pointer. The constructor argument is a `const char *`: callers pass the C
string. -/
def tokenize (text : String) : List String :=
  tokenizeAux text.data []

/-! ## Multicast route and routing table -/

/-- Modelled from the spec: the `Ipv4MulticastRoute` class of the INET library is
not part of the sources; a route has an origin address, an origin mask, a group
address, at most one input interface reference and "an ordered set of output
interface references". -/
structure Ipv4MulticastRoute where
  origin : Ipv4Address
  originNetmask : Ipv4Address
  multicastGroup : Ipv4Address
  inInterface : Option InterfaceRef
  outInterfaces : List InterfaceRef
deriving DecidableEq, Repr

namespace Ipv4MulticastRoute

/-- The route made by `new Ipv4MulticastRoute()`. -/
def new : Ipv4MulticastRoute :=
  { origin := Ipv4Address.unspecified
    originNetmask := Ipv4Address.unspecified
    multicastGroup := Ipv4Address.unspecified
    inInterface := none
    outInterfaces := [] }

/-- The setter `setOrigin`. -/
def setOrigin (r : Ipv4MulticastRoute) (a : Ipv4Address) : Ipv4MulticastRoute :=
  { r with origin := a }

/-- The setter `setOriginNetmask`. -/
def setOriginNetmask (r : Ipv4MulticastRoute) (a : Ipv4Address) : Ipv4MulticastRoute :=
  { r with originNetmask := a }

/-- The setter `setMulticastGroup`. -/
def setMulticastGroup (r : Ipv4MulticastRoute) (a : Ipv4Address) : Ipv4MulticastRoute :=
  { r with multicastGroup := a }

/-- The setter `setInInterface`, given the pointer the `InInterface` wraps. -/
def setInInterface (r : Ipv4MulticastRoute) (p : InterfaceRef) : Ipv4MulticastRoute :=
  { r with inInterface := some p }

/-- Modelled from the spec: `addOutInterface` of the INET library is not part of
the sources; the output interfaces are "an ordered set" in insertion order, so an
interface that is already an output of the route is not added a second time. -/
def addOutInterface (r : Ipv4MulticastRoute) (p : InterfaceRef) : Ipv4MulticastRoute :=
  if p ∈ r.outInterfaces then r
  else { r with outInterfaces := r.outInterfaces ++ [p] }

/-- The getter `getNumOutInterfaces`. -/
def getNumOutInterfaces (r : Ipv4MulticastRoute) : Nat :=
  r.outInterfaces.length

end Ipv4MulticastRoute

/-- Modelled from the spec: the `Ipv4RoutingTable` class of the INET library is
not part of the sources; the routing table is the sink of
`submitMulticastRoute`, the sequence of the multicast routes submitted to it so
far, oldest first. -/
structure Ipv4RoutingTable where
  multicastRoutes : List Ipv4MulticastRoute
deriving DecidableEq, Repr

/-- The submission `rt->addMulticastRoute(route)`. -/
def Ipv4RoutingTable.addMulticastRoute (rt : Ipv4RoutingTable) (r : Ipv4MulticastRoute) :
    Ipv4RoutingTable :=
  ⟨rt.multicastRoutes ++ [r]⟩

/-- The count `rt->getNumMulticastRoutes()`. -/
def Ipv4RoutingTable.getNumMulticastRoutes (rt : Ipv4RoutingTable) : Nat :=
  rt.multicastRoutes.length

/-! ## Diagnostics and exceptions -/

/-- Severity of a diagnostic record: `EV_INFO`, `EV_WARN`, `EV_ERROR`. -/
inductive LogLevel where
  | info
  | warn
  | error
deriving DecidableEq, Repr

/-- The diagnostic records `addMulticastRoute` emits, one constructor per `EV_`
statement of the function, with the values streamed into it (the host path
apart). -/
inductive LogMsg where
  /-- Line 96: the group address is empty, no route is installed. -/
  | groupAddressEmpty
  /-- Line 106: installation starts. -/
  | installing (origin mask group : Ipv4Address) (inInterface outInterfaces : String)
  /-- Line 128: the input interface was not found. -/
  | inInterfaceNotFound (name : String)
  /-- Line 143: the input interface in use. -/
  | usingInputInterface (name : String) (id : Int)
  /-- Line 147: no input interface was specified. -/
  | noInInterface
  /-- Line 157: an output interface was not found. -/
  | outInterfaceNotFound (token : String)
  /-- Line 171: an output interface was added. -/
  | addedOutputInterface (name : String) (id : Int)
  /-- Line 180: `outInterfaces` is empty, automatic discovery is attempted. -/
  | outInterfacesEmpty
  /-- Line 190: automatic discovery added an output interface. -/
  | autoAddedOutputInterface (name : String) (id : Int)
  /-- Line 195: automatic discovery found no interface. -/
  | discoveryFoundNone
  /-- Line 202: the route was installed; the table now has `count` routes. -/
  | installed (count : Nat)
deriving DecidableEq, Repr

/-- The severity each record is emitted with. -/
def LogMsg.level : LogMsg → LogLevel
  | .groupAddressEmpty => .warn
  | .installing _ _ _ _ _ => .info
  | .inInterfaceNotFound _ => .error
  | .usingInputInterface _ _ => .info
  | .noInInterface => .info
  | .outInterfaceNotFound _ => .error
  | .addedOutputInterface _ _ => .info
  | .outInterfacesEmpty => .warn
  | .autoAddedOutputInterface _ _ => .info
  | .discoveryFoundNone => .warn
  | .installed _ => .info

/-- The `cRuntimeError` exceptions that leave `addMulticastRoute`. -/
inductive CRuntimeError where
  /-- Raised by the `Ipv4Address` constructor on a C string that is not an address. -/
  | invalidAddress (text : String)
  /-- Line 133: the input interface named `name` (a C string) was not found. -/
  | inInterfaceNotFound (name : String)
  /-- Line 162: the output interface named `token` was not found. -/
  | outInterfaceNotFound (token : String)
deriving DecidableEq, Repr

/-! ## The configurator -/

/-- The multicast route specification held by the module (header lines 54-59). -/
structure MulticastConfigurator where
  groupAddress : String
  originAddress : String
  originNetmask : String
  inInterface : String
  outInterfaces : String
deriving DecidableEq, Repr

/-- What a call of `addMulticastRoute` leaves behind: the routing table after the
call, the diagnostic records emitted in order, and the exception thrown (`none`
when the call returns normally). -/
structure Outcome where
  rt : Ipv4RoutingTable
  log : List LogMsg
  thrown : Option CRuntimeError
deriving DecidableEq, Repr

/-- Lines 124-148, the input interface block: the records emitted so far and
either the exception thrown or the route with its input interface set. -/
def inputInterfaceBlock (self : MulticastConfigurator) (ift : InterfaceTable)
    (route : Ipv4MulticastRoute) (log : List LogMsg) :
    List LogMsg × Except CRuntimeError Ipv4MulticastRoute :=
  if !empty self.inInterface then
    match ift.findInterfaceByName (c_str self.inInterface) with
    | none =>
      (log ++ [LogMsg.inInterfaceNotFound self.inInterface],
        Except.error (CRuntimeError.inInterfaceNotFound (c_str self.inInterface)))
    | some ieIn =>
      (log ++ [LogMsg.usingInputInterface ieIn.entry.interfaceName ieIn.entry.interfaceId],
        Except.ok (route.setInInterface ieIn))
  else
    (log ++ [LogMsg.noInInterface], Except.ok route)

/-- Lines 154-173, the loop over the tokens of `outInterfaces`. -/
def tokenLoop (ift : InterfaceTable) :
    List String → Ipv4MulticastRoute → List LogMsg →
      List LogMsg × Except CRuntimeError Ipv4MulticastRoute
  | [], route, log => (log, Except.ok route)
  | token :: rest, route, log =>
    match ift.findInterfaceByName token with
    | none =>
      (log ++ [LogMsg.outInterfaceNotFound token],
        Except.error (CRuntimeError.outInterfaceNotFound token))
    | some ieOut =>
      tokenLoop ift rest (route.addOutInterface ieOut)
        (log ++ [LogMsg.addedOutputInterface ieOut.entry.interfaceName ieOut.entry.interfaceId])

/-- Lines 181-193, the loop over the interfaces of the table; `candidates` are the
interfaces not visited yet. -/
def discoveryLoop (inInterface : String) :
    List InterfaceRef → Ipv4MulticastRoute → List LogMsg → List LogMsg × Ipv4MulticastRoute
  | [], route, log => (log, route)
  | ieCandidate :: rest, route, log =>
    if rfindAtZero ieCandidate.entry.interfaceName "satNic" then
      if !empty inInterface && decide (ieCandidate.entry.interfaceName = inInterface) then
        discoveryLoop inInterface rest route log
      else
        discoveryLoop inInterface rest (route.addOutInterface ieCandidate)
          (log ++ [LogMsg.autoAddedOutputInterface ieCandidate.entry.interfaceName
            ieCandidate.entry.interfaceId])
    else
      discoveryLoop inInterface rest route log

/-- Lines 150-197, the output interfaces block. -/
def outputInterfacesBlock (self : MulticastConfigurator) (ift : InterfaceTable)
    (route : Ipv4MulticastRoute) (log : List LogMsg) :
    List LogMsg × Except CRuntimeError Ipv4MulticastRoute :=
  if !empty self.outInterfaces then
    tokenLoop ift (tokenize (c_str self.outInterfaces)) route log
  else
    match discoveryLoop self.inInterface ift.refs route (log ++ [LogMsg.outInterfacesEmpty]) with
    | (log2, route2) =>
      if route2.getNumOutInterfaces = 0 then
        (log2 ++ [LogMsg.discoveryFoundNone], Except.ok route2)
      else
        (log2, Except.ok route2)

/-- The method `MulticastConfigurator::addMulticastRoute` (lines 91-205). -/
def addMulticastRoute (self : MulticastConfigurator) (ift : InterfaceTable)
    (rt : Ipv4RoutingTable) : Outcome :=
  if empty self.groupAddress then
    { rt := rt, log := [LogMsg.groupAddressEmpty], thrown := none }
  else
    match Ipv4Address.ofText (c_str self.groupAddress) with
    | none =>
      { rt := rt, log := []
        thrown := some (CRuntimeError.invalidAddress (c_str self.groupAddress)) }
    | some group =>
    match Ipv4Address.ofText (c_str self.originAddress) with
    | none =>
      { rt := rt, log := []
        thrown := some (CRuntimeError.invalidAddress (c_str self.originAddress)) }
    | some origin =>
    match Ipv4Address.ofText (c_str self.originNetmask) with
    | none =>
      { rt := rt, log := []
        thrown := some (CRuntimeError.invalidAddress (c_str self.originNetmask)) }
    | some mask =>
    let route :=
      ((Ipv4MulticastRoute.new.setOrigin origin).setOriginNetmask mask).setMulticastGroup group
    match inputInterfaceBlock self ift route
        [LogMsg.installing origin mask group self.inInterface self.outInterfaces] with
    | (log, Except.error e) => { rt := rt, log := log, thrown := some e }
    | (log, Except.ok route) =>
    match outputInterfacesBlock self ift route log with
    | (log, Except.error e) => { rt := rt, log := log, thrown := some e }
    | (log, Except.ok route) =>
      { rt := rt.addMulticastRoute route
        log := log ++ [LogMsg.installed (rt.addMulticastRoute route).getNumMulticastRoutes]
        thrown := none }

/-! ## Sample inputs -/

/-- The interface named `name` with id `id`, up. -/
def sampleInterface (name : String) (id : Int) : InterfaceEntry :=
  { name := name, interfaceId := id, up := true }

/-- An inventory with three satellite NICs. -/
def threeSatNics : InterfaceTable :=
  [sampleInterface "satNic0" 100, sampleInterface "satNic1" 101, sampleInterface "satNic2" 102]

/-- An inventory without satellite NICs. -/
def twoEths : InterfaceTable :=
  [sampleInterface "eth0" 100, sampleInterface "eth1" 101]

/-- The specification of the header comment, with two output interfaces. -/
def sampleSpec : MulticastConfigurator :=
  { groupAddress := "239.1.1.1"
    originAddress := "0.0.0.0"
    originNetmask := "0.0.0.0"
    inInterface := "satNic0"
    outInterfaces := "satNic1 satNic2" }

/-- A routing table without multicast routes. -/
def emptyTable : Ipv4RoutingTable :=
  ⟨[]⟩

/-- A specification with an empty group address and unusable other fields. -/
def disabledSpec : MulticastConfigurator :=
  { groupAddress := ""
    originAddress := "bogus"
    originNetmask := "255.255"
    inInterface := "nope"
    outInterfaces := "missing0 missing1" }

/-- A routing table that already holds one multicast route. -/
def oneRouteTable : Ipv4RoutingTable :=
  ⟨[Ipv4MulticastRoute.new]⟩

/-- The sample specification with an input interface whose C string the inventory
lacks, while the text after its NUL names an interface of the inventory. -/
def missingInputSpec : MulticastConfigurator :=
  { sampleSpec with inInterface := "satNic9\x00satNic0", outInterfaces := "nowhere satNic1" }

/-- The sample specification with an input interface text that holds a NUL after
the name of an interface of the inventory. -/
def nulInputSpec : MulticastConfigurator :=
  { sampleSpec with inInterface := "satNic0\x00junk", outInterfaces := "satNic1" }

/-- The sample specification with an output interfaces text that holds a NUL after
its first token and an unknown name after the NUL. -/
def nulOutputSpec : MulticastConfigurator :=
  { sampleSpec with outInterfaces := "satNic1\x00 satNic9" }

/-- The sample specification with a group text that holds a NUL after a
dotted-decimal address. -/
def nulGroupSpec : MulticastConfigurator :=
  { sampleSpec with groupAddress := "239.1.1.1\x00junk" }

/-- A specification whose group, input and output texts all hold a NUL. -/
def nulSpec : MulticastConfigurator :=
  { groupAddress := "239.1.1.1\x00x"
    originAddress := "0.0.0.0"
    originNetmask := "0.0.0.0"
    inInterface := "satNic0\x00junk"
    outInterfaces := "satNic1\x00 satNic9" }

/-- The route the sample specification yields with the single output satNic1. -/
def oneOutputRoute : Ipv4MulticastRoute :=
  { origin := ⟨0⟩
    originNetmask := ⟨0⟩
    multicastGroup := ⟨4009820417⟩
    inInterface := some ⟨0, sampleInterface "satNic0" 100⟩
    outInterfaces := [⟨1, sampleInterface "satNic1" 101⟩] }

/-- The sample specification with a second and third output token the inventory
lacks. -/
def missingOutputSpec : MulticastConfigurator :=
  { sampleSpec with outInterfaces := "satNic1 satNic7 satNic8\x00 satNic0" }

/-- The sample specification with a malformed group text and unresolvable
interface names. -/
def malformedSpec : MulticastConfigurator :=
  { sampleSpec with groupAddress := "not-an-ip", inInterface := "nope", outInterfaces := "nada" }

/-- The sample specification without output interfaces. -/
def fallbackSpec : MulticastConfigurator :=
  { sampleSpec with outInterfaces := "" }

/-- The sample specification without input and output interfaces. -/
def wildcardSpec : MulticastConfigurator :=
  { sampleSpec with inInterface := "", outInterfaces := "" }

/-- The sample specification whose output interfaces text is three spaces. -/
def blankOutputSpec : MulticastConfigurator :=
  { sampleSpec with outInterfaces := "   " }

/-- An inventory that mixes names with and without the satellite NIC prefix. -/
def mixedInventory : InterfaceTable :=
  [sampleInterface "satNic" 7, sampleInterface "SatNic0" 8, sampleInterface "eth0" 9,
    sampleInterface "satnic1" 10, sampleInterface "satNicA" 11]

/-- The route the sample specification yields on the three satellite NICs. -/
def sampleRoute : Ipv4MulticastRoute :=
  { origin := ⟨0⟩
    originNetmask := ⟨0⟩
    multicastGroup := ⟨4009820417⟩
    inInterface := some ⟨0, sampleInterface "satNic0" 100⟩
    outInterfaces := [⟨1, sampleInterface "satNic1" 101⟩, ⟨2, sampleInterface "satNic2" 102⟩] }

/-! ## Helper definitions for the statements and proofs -/

/-- The diagnostic record of an explicitly added output interface. -/
def addedRecord (p : InterfaceRef) : LogMsg :=
  LogMsg.addedOutputInterface p.entry.interfaceName p.entry.interfaceId

/-- The diagnostic record of an automatically added output interface. -/
def autoAddedRecord (p : InterfaceRef) : LogMsg :=
  LogMsg.autoAddedOutputInterface p.entry.interfaceName p.entry.interfaceId

/-- The test an interface passes to be added by the discovery loop (lines 184-186):
its name starts with "satNic" and it is not the one named `inInterface`. -/
def discovered (inInterface : String) (p : InterfaceRef) : Bool :=
  rfindAtZero p.entry.interfaceName "satNic" &&
    !(!empty inInterface && decide (p.entry.interfaceName = inInterface))

/-- The input interface the route gets when `inInterface` is empty or resolves. -/
def resolvedInput (self : MulticastConfigurator) (ift : InterfaceTable) : Option InterfaceRef :=
  if self.inInterface = "" then none else ift.findInterfaceByName (c_str self.inInterface)

/-- The record the input interface block emits when `inInterface` is empty or
resolves. -/
def inputRecord (self : MulticastConfigurator) (ift : InterfaceTable) : LogMsg :=
  match resolvedInput self ift with
  | none => LogMsg.noInInterface
  | some p => LogMsg.usingInputInterface p.entry.interfaceName p.entry.interfaceId

/-- The route after the input interface block, given the pointer the lookup of
`inInterface` produced (`none` when `inInterface` is empty). -/
def withInput (route : Ipv4MulticastRoute) : Option InterfaceRef → Ipv4MulticastRoute
  | none => route
  | some p => route.setInInterface p

/-- The route as it stands after line 121. -/
def initialRoute (origin mask group : Ipv4Address) : Ipv4MulticastRoute :=
  ((Ipv4MulticastRoute.new.setOrigin origin).setOriginNetmask mask).setMulticastGroup group

/-! ## Auxiliary facts: strings, interface table -/

theorem empty_eq_true_iff (s : String) : empty s = true ↔ s = "" := by
  cases s with
  | mk cs =>
    cases cs with
    | nil => simp [empty]
    | cons c cs =>
      simp only [empty, List.isEmpty_cons, Bool.false_eq_true, false_iff]
      intro h
      have h2 := congrArg String.data h
      simp at h2

theorem empty_eq_false_iff (s : String) : empty s = false ↔ s ≠ "" := by
  have h := empty_eq_true_iff s
  cases he : empty s with
  | true => simpa using h.mp he
  | false =>
    simp only [true_iff]
    intro hs
    rw [h.mpr hs] at he
    exact Bool.noConfusion he

theorem mk_data (s : String) : String.mk s.data = s := by
  cases s
  rfl

theorem nul_not_mem_c_str (s : String) : nul ∉ (c_str s).data := by
  intro h
  have hp := List.mem_takeWhile_imp h
  simp at hp

theorem c_str_eq_self {s : String} (h : nul ∉ s.data) : c_str s = s := by
  have hall : s.data.takeWhile (fun c => c != nul) = s.data := by
    rw [List.takeWhile_eq_self_iff]
    intro c hc
    have : c ≠ nul := fun e => h (e ▸ hc)
    simpa using this
  unfold c_str
  rw [hall, mk_data]

theorem c_str_c_str (s : String) : c_str (c_str s) = c_str s :=
  c_str_eq_self (nul_not_mem_c_str s)

theorem c_str_interfaceName (ie : InterfaceEntry) : c_str ie.interfaceName = ie.interfaceName :=
  c_str_c_str ie.name

theorem mem_splitDots_of_mem {c : Char} :
    ∀ (cs : List Char), c ∈ cs → c = '.' ∨ ∃ f ∈ splitDots cs, c ∈ f
  | [], h => by simp at h
  | x :: cs, h => by
    by_cases hx : x = '.'
    · rcases List.mem_cons.mp h with hc | hc
      · exact Or.inl (hc.trans hx)
      · rcases mem_splitDots_of_mem cs hc with h1 | ⟨f, hf, hcf⟩
        · exact Or.inl h1
        · exact Or.inr ⟨f, by simp [splitDots, hx, hf], hcf⟩
    · rcases List.mem_cons.mp h with hc | hc
      · right
        cases hs : splitDots cs with
        | nil => exact ⟨[x], by simp [splitDots, hx, hs], by simp [hc]⟩
        | cons f0 fs => exact ⟨x :: f0, by simp [splitDots, hx, hs], by simp [hc]⟩
      · rcases mem_splitDots_of_mem cs hc with h1 | ⟨f, hf, hcf⟩
        · exact Or.inl h1
        · right
          cases hs : splitDots cs with
          | nil =>
            rw [hs] at hf
            simp at hf
          | cons f0 fs =>
            rw [hs] at hf
            rcases List.mem_cons.mp hf with hf2 | hf2
            · exact ⟨x :: f0, by simp [splitDots, hx, hs], by simp [← hf2, hcf]⟩
            · exact ⟨f, by simp [splitDots, hx, hs, hf2], hcf⟩

theorem parseOctet_digits {f : List Char} {n : Nat} (h : parseOctet f = some n) :
    ∀ c ∈ f, c.isDigit = true := by
  unfold parseOctet at h
  split at h
  · rename_i hc
    simp only [Bool.and_eq_true, List.all_eq_true] at hc
    exact hc.1.2
  · simp at h

theorem ofText_some_nul_free {text : String} {a : Ipv4Address}
    (h : Ipv4Address.ofText text = some a) : nul ∉ text.data := by
  intro hn
  unfold Ipv4Address.ofText at h
  split at h
  · rename_i a1 b1 c1 d1 heq
    rcases mem_splitDots_of_mem text.data hn with h1 | ⟨f, hf, hcf⟩
    · exact absurd h1 (by decide)
    · have hm : parseOctet f ∈ (splitDots text.data).map parseOctet :=
        List.mem_map_of_mem _ hf
      rw [heq] at hm
      simp only [List.mem_cons, List.mem_singleton, List.not_mem_nil, or_false] at hm
      have hd : nul.isDigit = true := by
        rcases hm with hm | hm | hm | hm <;> exact parseOctet_digits hm nul hcf
      exact absurd hd (by decide)
  · simp at h

theorem ofText_c_str {text : String} {a : Ipv4Address}
    (h : Ipv4Address.ofText text = some a) : Ipv4Address.ofText (c_str text) = some a := by
  rw [c_str_eq_self (ofText_some_nul_free h)]
  exact h

theorem mem_of_mem_refsFrom {p : InterfaceRef} :
    ∀ (l : List InterfaceEntry) (i : Nat), p ∈ refsFrom i l → p.entry ∈ l ∧ i ≤ p.slot
  | [], _, h => by simp [refsFrom] at h
  | ie :: rest, i, h => by
    simp only [refsFrom, List.mem_cons] at h
    rcases h with h | h
    · subst h
      simp
    · have ih := mem_of_mem_refsFrom rest (i + 1) h
      exact ⟨List.mem_cons_of_mem _ ih.1, by omega⟩

theorem exists_ref_of_mem {ie : InterfaceEntry} :
    ∀ (l : List InterfaceEntry) (i : Nat), ie ∈ l → ∃ p ∈ refsFrom i l, p.entry = ie
  | [], _, h => by simp at h
  | x :: rest, i, h => by
    simp only [List.mem_cons] at h
    rcases h with h | h
    · subst h
      exact ⟨⟨i, ie⟩, by simp [refsFrom], rfl⟩
    · obtain ⟨p, hp, hpe⟩ := exists_ref_of_mem rest (i + 1) h
      exact ⟨p, by simp [refsFrom, hp], hpe⟩

theorem refsFrom_nodup : ∀ (l : List InterfaceEntry) (i : Nat), (refsFrom i l).Nodup
  | [], _ => by simp [refsFrom]
  | ie :: rest, i => by
    simp only [refsFrom, List.nodup_cons]
    refine ⟨?_, refsFrom_nodup rest (i + 1)⟩
    intro h
    have := (mem_of_mem_refsFrom rest (i + 1) h).2
    simp at this

theorem refs_nodup (ift : InterfaceTable) : ift.refs.Nodup :=
  refsFrom_nodup ift 0

theorem entry_mem_of_mem_refs {ift : InterfaceTable} {p : InterfaceRef} (h : p ∈ ift.refs) :
    p.entry ∈ ift :=
  (mem_of_mem_refsFrom ift 0 h).1

theorem findInterfaceByName_eq_none_iff (ift : InterfaceTable) (name : String) :
    ift.findInterfaceByName name = none ↔ ∀ ie ∈ ift, ie.interfaceName ≠ name := by
  unfold InterfaceTable.findInterfaceByName
  rw [List.find?_eq_none]
  constructor
  · intro h ie hie
    obtain ⟨p, hp, hpe⟩ := exists_ref_of_mem ift 0 hie
    have := h p hp
    simpa [hpe] using this
  · intro h p hp
    have := h p.entry (entry_mem_of_mem_refs hp)
    simpa using this

theorem findInterfaceByName_some {ift : InterfaceTable} {name : String} {p : InterfaceRef}
    (h : ift.findInterfaceByName name = some p) :
    p ∈ ift.refs ∧ p.entry.interfaceName = name := by
  unfold InterfaceTable.findInterfaceByName at h
  refine ⟨List.mem_of_find?_eq_some h, ?_⟩
  have := List.find?_some h
  simpa using this

theorem findInterfaceByName_isSome_of_mem {ift : InterfaceTable} {name : String}
    (h : ∃ ie ∈ ift, ie.interfaceName = name) : ∃ p, ift.findInterfaceByName name = some p := by
  cases hf : ift.findInterfaceByName name with
  | some p => exact ⟨p, rfl⟩
  | none =>
    obtain ⟨ie, hie, hn⟩ := h
    exact absurd hn ((findInterfaceByName_eq_none_iff ift name).mp hf ie hie)

/-! ## Auxiliary facts: the route object -/

theorem addOutInterface_of_not_mem {r : Ipv4MulticastRoute} {p : InterfaceRef}
    (h : p ∉ r.outInterfaces) :
    r.addOutInterface p = { r with outInterfaces := r.outInterfaces ++ [p] } := by
  simp [Ipv4MulticastRoute.addOutInterface, h]

theorem addOutInterface_fields (r : Ipv4MulticastRoute) (p : InterfaceRef) :
    (r.addOutInterface p).origin = r.origin ∧
    (r.addOutInterface p).originNetmask = r.originNetmask ∧
    (r.addOutInterface p).multicastGroup = r.multicastGroup ∧
    (r.addOutInterface p).inInterface = r.inInterface := by
  unfold Ipv4MulticastRoute.addOutInterface
  split <;> simp

theorem mem_addOutInterface {r : Ipv4MulticastRoute} {p q : InterfaceRef} :
    q ∈ (r.addOutInterface p).outInterfaces ↔ q ∈ r.outInterfaces ∨ q = p := by
  unfold Ipv4MulticastRoute.addOutInterface
  split
  · rename_i h
    constructor
    · intro hq
      exact Or.inl hq
    · intro hq
      rcases hq with hq | hq
      · exact hq
      · rw [hq]
        exact h
  · simp

/-! ## Auxiliary facts: the token loop -/

theorem tokenLoop_ok_inv (ift : InterfaceTable) :
    ∀ (toks : List String) (route : Ipv4MulticastRoute) (log log2 : List LogMsg)
      (r : Ipv4MulticastRoute), tokenLoop ift toks route log = (log2, Except.ok r) →
      r.origin = route.origin ∧ r.originNetmask = route.originNetmask ∧
      r.multicastGroup = route.multicastGroup ∧ r.inInterface = route.inInterface ∧
      (∀ q ∈ r.outInterfaces, q ∈ route.outInterfaces ∨
        (q ∈ ift.refs ∧ q.entry.interfaceName ∈ toks)) ∧
      (∀ m ∈ log2, m ∈ log ∨ ∃ n i, m = LogMsg.addedOutputInterface n i)
  | [], route, log, log2, r, h => by
    simp only [tokenLoop, Prod.mk.injEq, Except.ok.injEq] at h
    obtain ⟨h1, h2⟩ := h
    subst h1 h2
    exact ⟨rfl, rfl, rfl, rfl, fun q hq => Or.inl hq, fun m hm => Or.inl hm⟩
  | token :: rest, route, log, log2, r, h => by
    unfold tokenLoop at h
    cases hf : ift.findInterfaceByName token with
    | none =>
      rw [hf] at h
      simp at h
    | some p =>
      rw [hf] at h
      simp only at h
      have ih := tokenLoop_ok_inv ift rest _ _ _ _ h
      have hfld := addOutInterface_fields route p
      obtain ⟨hp1, hp2⟩ := findInterfaceByName_some hf
      refine ⟨ih.1.trans hfld.1, ih.2.1.trans hfld.2.1, ih.2.2.1.trans hfld.2.2.1,
        ih.2.2.2.1.trans hfld.2.2.2, ?_, ?_⟩
      · intro q hq
        rcases ih.2.2.2.2.1 q hq with hq2 | hq2
        · rcases mem_addOutInterface.mp hq2 with hq3 | hq3
          · exact Or.inl hq3
          · subst hq3
            exact Or.inr ⟨hp1, by simp [hp2]⟩
        · exact Or.inr ⟨hq2.1, List.mem_cons_of_mem _ hq2.2⟩
      · intro m hm
        rcases ih.2.2.2.2.2 m hm with hm2 | hm2
        · rcases List.mem_append.mp hm2 with hm3 | hm3
          · exact Or.inl hm3
          · simp only [List.mem_singleton] at hm3
            exact Or.inr ⟨_, _, hm3⟩
        · exact Or.inr hm2

theorem tokenLoop_resolved (ift : InterfaceTable) :
    ∀ (toks : List String) (route : Ipv4MulticastRoute) (log : List LogMsg),
      (∀ t ∈ toks, ∃ ie ∈ ift, ie.interfaceName = t) → toks.Nodup →
      (∀ q ∈ route.outInterfaces, q.entry.interfaceName ∉ toks) →
      tokenLoop ift toks route log =
        (log ++ (toks.filterMap ift.findInterfaceByName).map addedRecord,
          Except.ok { route with outInterfaces :=
            route.outInterfaces ++ toks.filterMap ift.findInterfaceByName })
  | [], route, log, _, _, _ => by
    simp [tokenLoop]
  | token :: rest, route, log, hres, hnd, hout => by
    obtain ⟨p, hp⟩ := findInterfaceByName_isSome_of_mem (hres token (List.mem_cons_self _ _))
    obtain ⟨_, hpn⟩ := findInterfaceByName_some hp
    have hnot : p ∉ route.outInterfaces := by
      intro hmem
      exact hout p hmem (by simp [hpn])
    rw [List.nodup_cons] at hnd
    unfold tokenLoop
    rw [hp]
    simp only
    rw [tokenLoop_resolved ift rest _ _ (fun t ht => hres t (List.mem_cons_of_mem _ ht)) hnd.2]
    · simp [addOutInterface_of_not_mem hnot, List.filterMap_cons, hp, addedRecord]
    · intro q hq
      rcases mem_addOutInterface.mp hq with hq2 | hq2
      · intro hmem
        exact hout q hq2 (List.mem_cons_of_mem _ hmem)
      · subst hq2
        rw [hpn]
        exact hnd.1

theorem tokenLoop_unresolved (ift : InterfaceTable) (t0 : String) (post : List String)
    (h0 : ∀ ie ∈ ift, ie.interfaceName ≠ t0) :
    ∀ (pre : List String) (route : Ipv4MulticastRoute) (log : List LogMsg),
      (∀ t ∈ pre, ∃ ie ∈ ift, ie.interfaceName = t) →
      ∃ log2, tokenLoop ift (pre ++ t0 :: post) route log =
        (log2 ++ [LogMsg.outInterfaceNotFound t0],
          Except.error (CRuntimeError.outInterfaceNotFound t0))
  | [], route, log, _ => by
    refine ⟨log, ?_⟩
    simp [tokenLoop, (findInterfaceByName_eq_none_iff ift t0).mpr h0]
  | token :: rest, route, log, hres => by
    obtain ⟨p, hp⟩ := findInterfaceByName_isSome_of_mem (hres token (List.mem_cons_self _ _))
    simp only [List.cons_append, tokenLoop, hp]
    exact tokenLoop_unresolved ift t0 post h0 rest _ _
      (fun t ht => hres t (List.mem_cons_of_mem _ ht))

theorem exists_first_unresolved (ift : InterfaceTable) :
    ∀ (toks : List String), (∃ t ∈ toks, ∀ ie ∈ ift, ie.interfaceName ≠ t) →
      ∃ pre t0 post, toks = pre ++ t0 :: post ∧
        (∀ t ∈ pre, ∃ ie ∈ ift, ie.interfaceName = t) ∧
        (∀ ie ∈ ift, ie.interfaceName ≠ t0)
  | [], h => by simp at h
  | token :: rest, h => by
    by_cases hr : ∃ ie ∈ ift, ie.interfaceName = token
    · obtain ⟨t, ht, hun⟩ := h
      have ht2 : t ∈ rest := by
        rcases List.mem_cons.mp ht with ht3 | ht3
        · subst ht3
          obtain ⟨ie, hie, hn⟩ := hr
          exact absurd hn (hun ie hie)
        · exact ht3
      obtain ⟨pre, t0, post, he, hpre, h0⟩ := exists_first_unresolved ift rest ⟨t, ht2, hun⟩
      refine ⟨token :: pre, t0, post, by simp [he], ?_, h0⟩
      intro x hx
      rcases List.mem_cons.mp hx with hx2 | hx2
      · subst hx2
        exact hr
      · exact hpre x hx2
    · refine ⟨[], token, rest, rfl, by simp, ?_⟩
      intro ie hie hn
      exact hr ⟨ie, hie, hn⟩

/-! ## Auxiliary facts: the discovery loop -/

theorem discoveryLoop_spec (inInterface : String) :
    ∀ (cands : List InterfaceRef) (route : Ipv4MulticastRoute) (log : List LogMsg),
      cands.Nodup → (∀ q ∈ route.outInterfaces, q ∉ cands) →
      discoveryLoop inInterface cands route log =
        (log ++ (cands.filter (discovered inInterface)).map autoAddedRecord,
          { route with outInterfaces :=
            route.outInterfaces ++ cands.filter (discovered inInterface) })
  | [], route, log, _, _ => by
    simp [discoveryLoop]
  | c :: rest, route, log, hnd, hout => by
    rw [List.nodup_cons] at hnd
    have hout2 : ∀ q ∈ route.outInterfaces, q ∉ rest := fun q hq hmem =>
      hout q hq (List.mem_cons_of_mem _ hmem)
    unfold discoveryLoop
    by_cases h1 : rfindAtZero c.entry.interfaceName "satNic" = true
    · by_cases h2 : (!empty inInterface && decide (c.entry.interfaceName = inInterface)) = true
      · have hd : discovered inInterface c = false := by
          simp [discovered, h1, h2]
        rw [if_pos h1, if_pos h2, discoveryLoop_spec inInterface rest route log hnd.2 hout2]
        simp [List.filter_cons, hd]
      · have hd : discovered inInterface c = true := by
          simp only [Bool.not_eq_true] at h2
          simp [discovered, h1, h2]
        have hnot : c ∉ route.outInterfaces := fun hmem =>
          hout c hmem (List.mem_cons_self _ _)
        rw [if_pos h1, if_neg h2, discoveryLoop_spec inInterface rest _ _ hnd.2]
        · simp [addOutInterface_of_not_mem hnot, List.filter_cons, hd, autoAddedRecord]
        · intro q hq
          rcases mem_addOutInterface.mp hq with hq2 | hq2
          · exact hout2 q hq2
          · subst hq2
            exact hnd.1
    · have hd : discovered inInterface c = false := by
        simp only [Bool.not_eq_true] at h1
        simp [discovered, h1]
      rw [if_neg h1, discoveryLoop_spec inInterface rest route log hnd.2 hout2]
      simp [List.filter_cons, hd]

/-! ## Auxiliary facts: the tokenizer -/

theorem tokenize_empty : tokenize "" = [] := by
  simp [tokenize, tokenizeAux]

theorem tokenizeAux_spaces :
    ∀ (cs : List Char), (∀ c ∈ cs, c = ' ') → tokenizeAux cs [] = []
  | [], _ => by simp [tokenizeAux]
  | c :: cs, h => by
    have hc : c = ' ' := h c (List.mem_cons_self _ _)
    subst hc
    have hd : isDelimiter ' ' = true := by decide
    simp only [tokenizeAux, hd, if_true, List.isEmpty_nil]
    exact tokenizeAux_spaces cs (fun c hc => h c (List.mem_cons_of_mem _ hc))

theorem c_str_empty : c_str "" = "" := by
  decide

theorem ne_empty_of_c_str_ne_empty {s : String} (h : c_str s ≠ "") : s ≠ "" := by
  intro he
  rw [he] at h
  exact h c_str_empty

theorem mem_tokenizeAux_of_mem {c : Char} :
    ∀ (cs cur : List Char), (c ∈ cur ∨ (c ∈ cs ∧ isDelimiter c = false)) →
      ∃ t ∈ tokenizeAux cs cur, c ∈ t.data
  | [], cur, h => by
    rcases h with h | h
    · cases cur with
      | nil => simp at h
      | cons y ys =>
        exact ⟨String.mk (y :: ys).reverse, by simp [tokenizeAux], List.mem_reverse.mpr h⟩
    · simp at h
  | x :: cs, cur, h => by
    unfold tokenizeAux
    by_cases hx : isDelimiter x = true
    · rw [if_pos hx]
      rcases h with h | h
      · cases cur with
        | nil => simp at h
        | cons y ys =>
          exact ⟨String.mk (y :: ys).reverse, by simp, List.mem_reverse.mpr h⟩
      · have hc : c ∈ cs := by
          rcases List.mem_cons.mp h.1 with hcx | hcx
          · rw [hcx, hx] at h
            exact absurd h.2 (by simp)
          · exact hcx
        obtain ⟨t, ht, hct⟩ := mem_tokenizeAux_of_mem cs [] (Or.inr ⟨hc, h.2⟩)
        refine ⟨t, ?_, hct⟩
        split
        · exact ht
        · exact List.mem_cons_of_mem _ ht
    · rw [if_neg hx]
      apply mem_tokenizeAux_of_mem cs (x :: cur)
      rcases h with h | h
      · exact Or.inl (List.mem_cons_of_mem _ h)
      · rcases List.mem_cons.mp h.1 with hcx | hcx
        · exact Or.inl (by simp [hcx])
        · exact Or.inr ⟨hcx, h.2⟩

theorem c_str_of_tokens_resolve {ift : InterfaceTable} {text : String}
    (h : ∀ t ∈ tokenize text, ∃ ie ∈ ift, ie.interfaceName = t) : c_str text = text := by
  apply c_str_eq_self
  intro hn
  obtain ⟨t, ht, hct⟩ := mem_tokenizeAux_of_mem text.data [] (Or.inr ⟨hn, by decide⟩)
  obtain ⟨ie, _, hie⟩ := h t ht
  rw [← hie] at hct
  exact nul_not_mem_c_str ie.name hct

theorem c_str_of_resolves {ift : InterfaceTable} {name : String}
    (h : name = "" ∨ ∃ ie ∈ ift, ie.interfaceName = name) : c_str name = name := by
  rcases h with h | ⟨ie, _, hie⟩
  · rw [h]
    exact c_str_empty
  · rw [← hie]
    exact c_str_interfaceName ie

theorem c_str_of_spaces {text : String} (h : ∀ c ∈ text.data, c = ' ') : c_str text = text := by
  apply c_str_eq_self
  intro hn
  exact absurd (h nul hn) (by decide)

theorem ne_empty_of_mem_tokenize {text t : String} (h : t ∈ tokenize text) : text ≠ "" := by
  intro he
  rw [he, tokenize_empty] at h
  simp at h

/-! ## Auxiliary facts: the blocks of the installer -/

theorem inputInterfaceBlock_wildcard (self : MulticastConfigurator) (ift : InterfaceTable)
    (route : Ipv4MulticastRoute) (log : List LogMsg) (h : self.inInterface = "") :
    inputInterfaceBlock self ift route log = (log ++ [LogMsg.noInInterface], Except.ok route) := by
  simp [inputInterfaceBlock, (empty_eq_true_iff _).mpr h]

theorem inputInterfaceBlock_found (self : MulticastConfigurator) (ift : InterfaceTable)
    (route : Ipv4MulticastRoute) (log : List LogMsg) (p : InterfaceRef)
    (h : self.inInterface ≠ "")
    (hf : ift.findInterfaceByName (c_str self.inInterface) = some p) :
    inputInterfaceBlock self ift route log =
      (log ++ [LogMsg.usingInputInterface p.entry.interfaceName p.entry.interfaceId],
        Except.ok (route.setInInterface p)) := by
  simp [inputInterfaceBlock, (empty_eq_false_iff _).mpr h, hf]

theorem inputInterfaceBlock_missing (self : MulticastConfigurator) (ift : InterfaceTable)
    (route : Ipv4MulticastRoute) (log : List LogMsg)
    (h : self.inInterface ≠ "")
    (hf : ift.findInterfaceByName (c_str self.inInterface) = none) :
    inputInterfaceBlock self ift route log =
      (log ++ [LogMsg.inInterfaceNotFound self.inInterface],
        Except.error (CRuntimeError.inInterfaceNotFound (c_str self.inInterface))) := by
  simp [inputInterfaceBlock, (empty_eq_false_iff _).mpr h, hf]

theorem inputInterfaceBlock_ok (self : MulticastConfigurator) (ift : InterfaceTable)
    (route : Ipv4MulticastRoute) (log : List LogMsg)
    (h : self.inInterface = "" ∨ ∃ ie ∈ ift, ie.interfaceName = c_str self.inInterface) :
    inputInterfaceBlock self ift route log =
      (log ++ [inputRecord self ift],
        Except.ok (withInput route (resolvedInput self ift))) := by
  by_cases he : self.inInterface = ""
  · rw [inputInterfaceBlock_wildcard self ift route log he]
    simp [inputRecord, resolvedInput, he, withInput]
  · have hex : ∃ ie ∈ ift, ie.interfaceName = c_str self.inInterface := by
      rcases h with h | h
      · exact absurd h he
      · exact h
    obtain ⟨p, hp⟩ := findInterfaceByName_isSome_of_mem hex
    rw [inputInterfaceBlock_found self ift route log p he hp]
    simp [inputRecord, resolvedInput, he, hp, withInput]

theorem withInput_fields (route : Ipv4MulticastRoute) (x : Option InterfaceRef) :
    (withInput route x).origin = route.origin ∧
    (withInput route x).originNetmask = route.originNetmask ∧
    (withInput route x).multicastGroup = route.multicastGroup ∧
    (withInput route x).outInterfaces = route.outInterfaces := by
  cases x <;> exact ⟨rfl, rfl, rfl, rfl⟩

theorem withInput_initialRoute (o m g : Ipv4Address) (x : Option InterfaceRef) :
    withInput (initialRoute o m g) x =
      { origin := o, originNetmask := m, multicastGroup := g, inInterface := x,
        outInterfaces := [] } := by
  cases x <;> rfl

theorem addMulticastRoute_parsed (self : MulticastConfigurator) (ift : InterfaceTable)
    (rt : Ipv4RoutingTable) (g o m : Ipv4Address) (hg : self.groupAddress ≠ "")
    (pg : Ipv4Address.ofText (c_str self.groupAddress) = some g)
    (po : Ipv4Address.ofText (c_str self.originAddress) = some o)
    (pm : Ipv4Address.ofText (c_str self.originNetmask) = some m) :
    addMulticastRoute self ift rt =
      match inputInterfaceBlock self ift (initialRoute o m g)
          [LogMsg.installing o m g self.inInterface self.outInterfaces] with
      | (log, Except.error e) => { rt := rt, log := log, thrown := some e }
      | (log, Except.ok route) =>
        match outputInterfacesBlock self ift route log with
        | (log, Except.error e) => { rt := rt, log := log, thrown := some e }
        | (log, Except.ok route) =>
          { rt := rt.addMulticastRoute route
            log := log ++ [LogMsg.installed (rt.addMulticastRoute route).getNumMulticastRoutes]
            thrown := none } := by
  simp only [addMulticastRoute, (empty_eq_false_iff _).mpr hg, pg, po, pm, initialRoute]
  rfl

theorem outputInterfacesBlock_explicit (self : MulticastConfigurator) (ift : InterfaceTable)
    (route : Ipv4MulticastRoute) (log : List LogMsg) (h : self.outInterfaces ≠ "") :
    outputInterfacesBlock self ift route log =
      tokenLoop ift (tokenize (c_str self.outInterfaces)) route log := by
  simp [outputInterfacesBlock, (empty_eq_false_iff _).mpr h]

theorem outputInterfacesBlock_fallback (self : MulticastConfigurator) (ift : InterfaceTable)
    (route : Ipv4MulticastRoute) (log : List LogMsg) (h : self.outInterfaces = "")
    (hr : route.outInterfaces = []) :
    outputInterfacesBlock self ift route log =
      (log ++ [LogMsg.outInterfacesEmpty] ++
          (ift.refs.filter (discovered self.inInterface)).map autoAddedRecord ++
          (if ift.refs.filter (discovered self.inInterface) = [] then
            [LogMsg.discoveryFoundNone] else []),
        Except.ok
          { route with outInterfaces := ift.refs.filter (discovered self.inInterface) }) := by
  have hspec := discoveryLoop_spec self.inInterface ift.refs route
    (log ++ [LogMsg.outInterfacesEmpty]) (refs_nodup ift) (by simp [hr])
  simp only [outputInterfacesBlock, (empty_eq_true_iff _).mpr h, hspec, hr, List.nil_append,
    Ipv4MulticastRoute.getNumOutInterfaces, List.length_eq_zero]
  by_cases hz : ift.refs.filter (discovered self.inInterface) = []
  · simp [hz]
  · simp [hz]

theorem discovered_iff (inInterface : String) (p : InterfaceRef) :
    discovered inInterface p =
      ("satNic".data.isPrefixOf p.entry.interfaceName.data &&
        !(decide (inInterface ≠ "") && decide (p.entry.interfaceName = inInterface))) := by
  unfold discovered rfindAtZero
  by_cases he : inInterface = ""
  · have e1 : empty inInterface = true := (empty_eq_true_iff _).mpr he
    rw [e1]
    simp [he]
  · have e1 : empty inInterface = false := (empty_eq_false_iff _).mpr he
    rw [e1]
    simp [he]

theorem inputInterfaceBlock_ok_inv (self : MulticastConfigurator) (ift : InterfaceTable)
    (route r : Ipv4MulticastRoute) (log log2 : List LogMsg)
    (h : inputInterfaceBlock self ift route log = (log2, Except.ok r)) :
    r.origin = route.origin ∧ r.originNetmask = route.originNetmask ∧
    r.multicastGroup = route.multicastGroup ∧ r.outInterfaces = route.outInterfaces ∧
    (r.inInterface = route.inInterface ∨
      ∃ p, r.inInterface = some p ∧ p ∈ ift.refs ∧
        p.entry.interfaceName = c_str self.inInterface) := by
  by_cases he : self.inInterface = ""
  · rw [inputInterfaceBlock_wildcard self ift route log he] at h
    simp only [Prod.mk.injEq, Except.ok.injEq] at h
    rw [← h.2]
    simp
  · cases hf : ift.findInterfaceByName (c_str self.inInterface) with
    | none =>
      rw [inputInterfaceBlock_missing self ift route log he hf] at h
      simp at h
    | some p =>
      rw [inputInterfaceBlock_found self ift route log p he hf] at h
      simp only [Prod.mk.injEq, Except.ok.injEq] at h
      rw [← h.2]
      obtain ⟨hp1, hp2⟩ := findInterfaceByName_some hf
      exact ⟨rfl, rfl, rfl, rfl, Or.inr ⟨p, rfl, hp1, hp2⟩⟩

theorem addMulticastRoute_empty_group (self : MulticastConfigurator) (ift : InterfaceTable)
    (rt : Ipv4RoutingTable) (h : self.groupAddress = "") :
    addMulticastRoute self ift rt =
      { rt := rt, log := [LogMsg.groupAddressEmpty], thrown := none } := by
  simp [addMulticastRoute, (empty_eq_true_iff _).mpr h]

theorem addMulticastRoute_cases (self : MulticastConfigurator) (ift : InterfaceTable) :
    (∀ rt, (addMulticastRoute self ift rt).rt = rt) ∨
    ∃ g o m log1 r1 log2 r2, self.groupAddress ≠ "" ∧
      Ipv4Address.ofText (c_str self.groupAddress) = some g ∧
      Ipv4Address.ofText (c_str self.originAddress) = some o ∧
      Ipv4Address.ofText (c_str self.originNetmask) = some m ∧
      inputInterfaceBlock self ift (initialRoute o m g)
        [LogMsg.installing o m g self.inInterface self.outInterfaces] = (log1, Except.ok r1) ∧
      outputInterfacesBlock self ift r1 log1 = (log2, Except.ok r2) ∧
      ∀ rt, addMulticastRoute self ift rt =
        { rt := rt.addMulticastRoute r2
          log := log2 ++ [LogMsg.installed (rt.addMulticastRoute r2).getNumMulticastRoutes]
          thrown := none } := by
  by_cases hg : self.groupAddress = ""
  · left
    intro rt
    rw [addMulticastRoute_empty_group self ift rt hg]
  · cases pg : Ipv4Address.ofText (c_str self.groupAddress) with
    | none =>
      left
      intro rt
      simp [addMulticastRoute, (empty_eq_false_iff _).mpr hg, pg]
    | some g =>
      cases po : Ipv4Address.ofText (c_str self.originAddress) with
      | none =>
        left
        intro rt
        simp [addMulticastRoute, (empty_eq_false_iff _).mpr hg, pg, po]
      | some o =>
        cases pm : Ipv4Address.ofText (c_str self.originNetmask) with
        | none =>
          left
          intro rt
          simp [addMulticastRoute, (empty_eq_false_iff _).mpr hg, pg, po, pm]
        | some m =>
          cases h1 : inputInterfaceBlock self ift (initialRoute o m g)
              [LogMsg.installing o m g self.inInterface self.outInterfaces] with
          | mk log1 res1 =>
            cases res1 with
            | error e =>
              left
              intro rt
              rw [addMulticastRoute_parsed self ift rt g o m hg pg po pm, h1]
            | ok r1 =>
              cases h2 : outputInterfacesBlock self ift r1 log1 with
              | mk log2 res2 =>
                cases res2 with
                | error e =>
                  left
                  intro rt
                  rw [addMulticastRoute_parsed self ift rt g o m hg pg po pm, h1]
                  simp only [h2]
                | ok r2 =>
                  right
                  refine ⟨g, o, m, log1, r1, log2, r2, hg, rfl, rfl, rfl, h1, h2, ?_⟩
                  intro rt
                  rw [addMulticastRoute_parsed self ift rt g o m hg pg po pm, h1]
                  simp only [h2]

theorem map_name_filterMap_find (ift : InterfaceTable) :
    ∀ (toks : List String), (∀ t ∈ toks, ∃ ie ∈ ift, ie.interfaceName = t) →
      (toks.filterMap ift.findInterfaceByName).map (fun p => p.entry.interfaceName) = toks
  | [], _ => by simp
  | token :: rest, hres => by
    obtain ⟨p, hp⟩ := findInterfaceByName_isSome_of_mem (hres token (List.mem_cons_self _ _))
    obtain ⟨_, hpn⟩ := findInterfaceByName_some hp
    simp only [List.filterMap_cons, hp, List.map_cons, hpn]
    rw [map_name_filterMap_find ift rest (fun t ht => hres t (List.mem_cons_of_mem _ ht))]

theorem mem_refs_of_mem_filterMap_find (ift : InterfaceTable) (toks : List String)
    (p : InterfaceRef) (h : p ∈ toks.filterMap ift.findInterfaceByName) : p ∈ ift.refs := by
  rw [List.mem_filterMap] at h
  obtain ⟨t, _, ht⟩ := h
  exact (findInterfaceByName_some ht).1

theorem outputInterfacesBlock_ok_inv (self : MulticastConfigurator) (ift : InterfaceTable)
    (r1 r2 : Ipv4MulticastRoute) (log1 log2 : List LogMsg) (hr : r1.outInterfaces = [])
    (h : outputInterfacesBlock self ift r1 log1 = (log2, Except.ok r2)) :
    r2.origin = r1.origin ∧ r2.originNetmask = r1.originNetmask ∧
    r2.multicastGroup = r1.multicastGroup ∧ r2.inInterface = r1.inInterface ∧
    ∀ q ∈ r2.outInterfaces, q ∈ ift.refs ∧
      ((self.outInterfaces ≠ "" ∧
          q.entry.interfaceName ∈ tokenize (c_str self.outInterfaces)) ∨
        (self.outInterfaces = "" ∧
          "satNic".data.isPrefixOf q.entry.interfaceName.data = true)) := by
  by_cases hout : self.outInterfaces = ""
  · rw [outputInterfacesBlock_fallback self ift r1 log1 hout hr] at h
    simp only [Prod.mk.injEq, Except.ok.injEq] at h
    rw [← h.2]
    refine ⟨rfl, rfl, rfl, rfl, ?_⟩
    intro q hq
    simp only [List.mem_filter] at hq
    refine ⟨hq.1, Or.inr ⟨hout, ?_⟩⟩
    have hd := hq.2
    rw [discovered_iff] at hd
    simp only [Bool.and_eq_true] at hd
    exact hd.1
  · rw [outputInterfacesBlock_explicit self ift r1 log1 hout] at h
    have hinv := tokenLoop_ok_inv ift _ _ _ _ _ h
    refine ⟨hinv.1, hinv.2.1, hinv.2.2.1, hinv.2.2.2.1, ?_⟩
    intro q hq
    rcases hinv.2.2.2.2.1 q hq with hq2 | hq2
    · rw [hr] at hq2
      simp at hq2
    · exact ⟨hq2.1, Or.inl ⟨hout, hq2.2⟩⟩

/-! ## Properties of the installer -/

/-- C1: when `groupAddress` is the empty string, whatever the other fields, the
inventory and the routing table are, `addMulticastRoute` returns normally (no
exception), submits nothing, so that the routing table and its list of multicast
routes are unchanged, and emits only the "group address is empty" record. -/
theorem empty_group_installs_nothing (self : MulticastConfigurator) (ift : InterfaceTable)
    (rt : Ipv4RoutingTable) (h : self.groupAddress = "") :
    (addMulticastRoute self ift rt).thrown = none ∧
    (addMulticastRoute self ift rt).rt = rt ∧
    (addMulticastRoute self ift rt).rt.multicastRoutes = rt.multicastRoutes ∧
    (addMulticastRoute self ift rt).log = [LogMsg.groupAddressEmpty] := by
  rw [addMulticastRoute_empty_group self ift rt h]
  exact ⟨rfl, rfl, rfl, rfl⟩

theorem empty_group_installs_nothing_witness :
    disabledSpec.groupAddress = "" ∧
    Ipv4Address.ofText disabledSpec.originAddress = none ∧
    twoEths.findInterfaceByName disabledSpec.inInterface = none ∧
    (addMulticastRoute disabledSpec twoEths oneRouteTable).thrown = none ∧
    (addMulticastRoute disabledSpec twoEths oneRouteTable).rt = oneRouteTable ∧
    (addMulticastRoute disabledSpec twoEths oneRouteTable).rt.multicastRoutes =
      oneRouteTable.multicastRoutes ∧
    (addMulticastRoute disabledSpec twoEths oneRouteTable).log = [LogMsg.groupAddressEmpty] :=
  ⟨rfl, by decide, by decide, empty_group_installs_nothing disabledSpec twoEths oneRouteTable rfl⟩

/-- C2, as amended: with a non-empty group, parseable addresses and a non-empty
`inInterface` whose C string (its text before the first NUL character, which is
what the lookup of line 126 receives) is carried by no interface of the
inventory, `addMulticastRoute` throws the "inInterface not found" error naming
that C string, the routing table is unchanged, and the only records emitted are
the start record and the error record: no output token is examined, whatever
`outInterfaces` is. -/
theorem missing_input_interface_aborts (self : MulticastConfigurator) (ift : InterfaceTable)
    (rt : Ipv4RoutingTable) (g o m : Ipv4Address) (hg : self.groupAddress ≠ "")
    (pg : Ipv4Address.ofText self.groupAddress = some g)
    (po : Ipv4Address.ofText self.originAddress = some o)
    (pm : Ipv4Address.ofText self.originNetmask = some m)
    (hin : self.inInterface ≠ "")
    (hun : ∀ ie ∈ ift, ie.interfaceName ≠ c_str self.inInterface) :
    (addMulticastRoute self ift rt).thrown =
      some (CRuntimeError.inInterfaceNotFound (c_str self.inInterface)) ∧
    (addMulticastRoute self ift rt).rt = rt ∧
    (addMulticastRoute self ift rt).log =
      [LogMsg.installing o m g self.inInterface self.outInterfaces,
        LogMsg.inInterfaceNotFound self.inInterface] := by
  rw [addMulticastRoute_parsed self ift rt g o m hg (ofText_c_str pg) (ofText_c_str po)
      (ofText_c_str pm),
    inputInterfaceBlock_missing self ift _ _ hin
      ((findInterfaceByName_eq_none_iff ift (c_str self.inInterface)).mpr hun)]
  exact ⟨rfl, rfl, rfl⟩

theorem missing_input_interface_aborts_witness :
    missingInputSpec.groupAddress ≠ "" ∧
    missingInputSpec.inInterface ≠ "" ∧
    c_str missingInputSpec.inInterface = "satNic9" ∧
    (∀ ie ∈ threeSatNics, ie.interfaceName ≠ c_str missingInputSpec.inInterface) ∧
    ((addMulticastRoute missingInputSpec threeSatNics emptyTable).thrown =
      some (CRuntimeError.inInterfaceNotFound (c_str missingInputSpec.inInterface)) ∧
    (addMulticastRoute missingInputSpec threeSatNics emptyTable).rt = emptyTable ∧
    (addMulticastRoute missingInputSpec threeSatNics emptyTable).log =
      [LogMsg.installing ⟨0⟩ ⟨0⟩ ⟨4009820417⟩ missingInputSpec.inInterface
          missingInputSpec.outInterfaces,
        LogMsg.inInterfaceNotFound missingInputSpec.inInterface]) :=
  ⟨by decide, by decide, by decide, by decide,
    missing_input_interface_aborts missingInputSpec threeSatNics emptyTable
      ⟨4009820417⟩ ⟨0⟩ ⟨0⟩ (by decide) (by decide) (by decide) (by decide) (by decide)
      (by decide)⟩

/-- Counterexample to C2 as the claim states it: the group is non-empty, the addresses
parse, `inInterface` is the non-empty text of "satNic0", a NUL and "junk", which
no interface of the inventory carries as its name, and yet `addMulticastRoute`
looks up the C string "satNic0", throws nothing and submits a route with input
satNic0. -/
theorem missing_input_interface_claim_refuted :
    nulInputSpec.groupAddress ≠ "" ∧
    Ipv4Address.ofText nulInputSpec.groupAddress = some ⟨4009820417⟩ ∧
    Ipv4Address.ofText nulInputSpec.originAddress = some ⟨0⟩ ∧
    Ipv4Address.ofText nulInputSpec.originNetmask = some ⟨0⟩ ∧
    nulInputSpec.inInterface ≠ "" ∧
    (∀ ie ∈ threeSatNics, ie.interfaceName ≠ nulInputSpec.inInterface) ∧
    (addMulticastRoute nulInputSpec threeSatNics emptyTable).thrown = none ∧
    (addMulticastRoute nulInputSpec threeSatNics emptyTable).rt ≠ emptyTable ∧
    (addMulticastRoute nulInputSpec threeSatNics emptyTable).rt.multicastRoutes =
      [oneOutputRoute] := by
  decide

/-- C3, as amended: when some token of the C string of `outInterfaces` (its text
before the first NUL character, which is what the tokenizer of line 152
receives) is carried by no interface of the inventory, the routing table is
unchanged, whatever the other fields are and even when earlier tokens resolved;
and when moreover the group is non-empty, the addresses parse and `inInterface`
is empty or resolves, the call throws the "outInterface not found" error naming
the first token of that C string, in token order, that no interface carries. -/
theorem missing_output_interface_aborts (self : MulticastConfigurator) (ift : InterfaceTable)
    (rt : Ipv4RoutingTable) (t : String) (ht : t ∈ tokenize (c_str self.outInterfaces))
    (hun : ∀ ie ∈ ift, ie.interfaceName ≠ t) :
    (addMulticastRoute self ift rt).rt = rt ∧
    ∀ g o m : Ipv4Address, self.groupAddress ≠ "" →
      Ipv4Address.ofText self.groupAddress = some g →
      Ipv4Address.ofText self.originAddress = some o →
      Ipv4Address.ofText self.originNetmask = some m →
      (self.inInterface = "" ∨ ∃ ie ∈ ift, ie.interfaceName = self.inInterface) →
      ∃ pre t0 post, tokenize (c_str self.outInterfaces) = pre ++ t0 :: post ∧
        (∀ x ∈ pre, ∃ ie ∈ ift, ie.interfaceName = x) ∧
        (∀ ie ∈ ift, ie.interfaceName ≠ t0) ∧
        (addMulticastRoute self ift rt).thrown =
          some (CRuntimeError.outInterfaceNotFound t0) := by
  have hne : self.outInterfaces ≠ "" :=
    ne_empty_of_c_str_ne_empty (ne_empty_of_mem_tokenize ht)
  obtain ⟨pre, t0, post, hsplit, hpre, h0⟩ :=
    exists_first_unresolved ift (tokenize (c_str self.outInterfaces)) ⟨t, ht, hun⟩
  have hblock : ∀ route log, ∃ log2, outputInterfacesBlock self ift route log =
      (log2 ++ [LogMsg.outInterfaceNotFound t0],
        Except.error (CRuntimeError.outInterfaceNotFound t0)) := by
    intro route log
    rw [outputInterfacesBlock_explicit self ift route log hne, hsplit]
    exact tokenLoop_unresolved ift t0 post h0 pre route log hpre
  constructor
  · rcases addMulticastRoute_cases self ift with hc | hc
    · exact hc rt
    · obtain ⟨g, o, m, log1, r1, log2, r2, _, _, _, _, _, h2, _⟩ := hc
      obtain ⟨log3, h3⟩ := hblock r1 log1
      rw [h3] at h2
      simp at h2
  · intro g o m hg pg po pm hin
    refine ⟨pre, t0, post, hsplit, hpre, h0, ?_⟩
    have hcin : c_str self.inInterface = self.inInterface := c_str_of_resolves hin
    rw [addMulticastRoute_parsed self ift rt g o m hg (ofText_c_str pg) (ofText_c_str po)
        (ofText_c_str pm),
      inputInterfaceBlock_ok self ift _ _ (by rw [hcin]; exact hin)]
    obtain ⟨log3, h3⟩ := hblock (withInput (initialRoute o m g) (resolvedInput self ift))
      ([LogMsg.installing o m g self.inInterface self.outInterfaces] ++ [inputRecord self ift])
    simp only [h3]

theorem missing_output_interface_aborts_witness :
    tokenize (c_str missingOutputSpec.outInterfaces) = ["satNic1", "satNic7", "satNic8"] ∧
    "satNic8" ∈ tokenize (c_str missingOutputSpec.outInterfaces) ∧
    (∀ ie ∈ threeSatNics, ie.interfaceName ≠ "satNic8") ∧
    ((addMulticastRoute missingOutputSpec threeSatNics oneRouteTable).rt = oneRouteTable ∧
    ∀ g o m : Ipv4Address, missingOutputSpec.groupAddress ≠ "" →
      Ipv4Address.ofText missingOutputSpec.groupAddress = some g →
      Ipv4Address.ofText missingOutputSpec.originAddress = some o →
      Ipv4Address.ofText missingOutputSpec.originNetmask = some m →
      (missingOutputSpec.inInterface = "" ∨
        ∃ ie ∈ threeSatNics, ie.interfaceName = missingOutputSpec.inInterface) →
      ∃ pre t0 post, tokenize (c_str missingOutputSpec.outInterfaces) = pre ++ t0 :: post ∧
        (∀ x ∈ pre, ∃ ie ∈ threeSatNics, ie.interfaceName = x) ∧
        (∀ ie ∈ threeSatNics, ie.interfaceName ≠ t0) ∧
        (addMulticastRoute missingOutputSpec threeSatNics oneRouteTable).thrown =
          some (CRuntimeError.outInterfaceNotFound t0)) ∧
    (addMulticastRoute missingOutputSpec threeSatNics oneRouteTable).thrown =
      some (CRuntimeError.outInterfaceNotFound "satNic7") :=
  ⟨by decide, by decide, by decide,
    missing_output_interface_aborts missingOutputSpec threeSatNics oneRouteTable "satNic8"
      (by decide) (by decide),
    by decide⟩

/-- Counterexample to C3 as the claim states it: the text of `outInterfaces` is "satNic1", a
NUL, a space and "satNic9"; split on whitespace it holds the token "satNic9",
which no interface of the inventory carries, and yet `addMulticastRoute`
tokenizes the C string "satNic1" only, throws nothing and submits a route with
the single output satNic1. -/
theorem missing_output_interface_claim_refuted :
    "satNic9" ∈ tokenize nulOutputSpec.outInterfaces ∧
    (∀ ie ∈ threeSatNics, ie.interfaceName ≠ "satNic9") ∧
    (addMulticastRoute nulOutputSpec threeSatNics emptyTable).thrown = none ∧
    (addMulticastRoute nulOutputSpec threeSatNics emptyTable).rt ≠ emptyTable ∧
    (addMulticastRoute nulOutputSpec threeSatNics emptyTable).rt.multicastRoutes =
      [oneOutputRoute] := by
  decide

/-- C7, as amended: with a non-empty group, when the C string of the group text, of
the origin text or of the mask text (the text before the first NUL character,
which is what the address constructors of lines 102-104 receive) is not a
dotted-decimal address, `addMulticastRoute` throws the invalid-address error for
the first of the three C strings, in that order, that does not parse, the routing
table is unchanged, and no record at all has been emitted: the parse is decided
before any interface is resolved, whatever the interface names and the inventory
are. -/
theorem malformed_address_aborts (self : MulticastConfigurator) (ift : InterfaceTable)
    (rt : Ipv4RoutingTable) (hg : self.groupAddress ≠ "")
    (hbad : Ipv4Address.ofText (c_str self.groupAddress) = none ∨
      Ipv4Address.ofText (c_str self.originAddress) = none ∨
      Ipv4Address.ofText (c_str self.originNetmask) = none) :
    (∃ text, (addMulticastRoute self ift rt).thrown = some (CRuntimeError.invalidAddress text) ∧
      Ipv4Address.ofText text = none ∧
      (text = c_str self.groupAddress ∨ text = c_str self.originAddress ∨
        text = c_str self.originNetmask)) ∧
    (addMulticastRoute self ift rt).rt = rt ∧
    (addMulticastRoute self ift rt).log = [] := by
  have he := (empty_eq_false_iff _).mpr hg
  cases pg : Ipv4Address.ofText (c_str self.groupAddress) with
  | none =>
    refine ⟨⟨c_str self.groupAddress, ?_, pg, Or.inl rfl⟩, ?_, ?_⟩ <;>
      simp [addMulticastRoute, he, pg]
  | some g =>
    cases po : Ipv4Address.ofText (c_str self.originAddress) with
    | none =>
      refine ⟨⟨c_str self.originAddress, ?_, po, Or.inr (Or.inl rfl)⟩, ?_, ?_⟩ <;>
        simp [addMulticastRoute, he, pg, po]
    | some o =>
      cases pm : Ipv4Address.ofText (c_str self.originNetmask) with
      | none =>
        refine ⟨⟨c_str self.originNetmask, ?_, pm, Or.inr (Or.inr rfl)⟩, ?_, ?_⟩ <;>
          simp [addMulticastRoute, he, pg, po, pm]
      | some m =>
        rw [pg, po, pm] at hbad
        simp at hbad

theorem malformed_address_aborts_witness :
    malformedSpec.groupAddress ≠ "" ∧
    Ipv4Address.ofText (c_str malformedSpec.groupAddress) = none ∧
    threeSatNics.findInterfaceByName (c_str malformedSpec.inInterface) = none ∧
    ((∃ text, (addMulticastRoute malformedSpec threeSatNics emptyTable).thrown =
        some (CRuntimeError.invalidAddress text) ∧
      Ipv4Address.ofText text = none ∧
      (text = c_str malformedSpec.groupAddress ∨ text = c_str malformedSpec.originAddress ∨
        text = c_str malformedSpec.originNetmask)) ∧
    (addMulticastRoute malformedSpec threeSatNics emptyTable).rt = emptyTable ∧
    (addMulticastRoute malformedSpec threeSatNics emptyTable).log = []) ∧
    (addMulticastRoute malformedSpec threeSatNics emptyTable).thrown =
      some (CRuntimeError.invalidAddress "not-an-ip") :=
  ⟨by decide, by decide, by decide,
    malformed_address_aborts malformedSpec threeSatNics emptyTable (by decide)
      (Or.inl (by decide)),
    by decide⟩

/-- Counterexample to C7 as the claim states it: the group text is "239.1.1.1", a NUL and
"junk", which is non-empty and is not a dotted-decimal address, and yet
`addMulticastRoute` parses the C string "239.1.1.1", throws nothing and submits
the route for that group. -/
theorem malformed_address_claim_refuted :
    nulGroupSpec.groupAddress ≠ "" ∧
    Ipv4Address.ofText nulGroupSpec.groupAddress = none ∧
    (addMulticastRoute nulGroupSpec threeSatNics emptyTable).thrown = none ∧
    (addMulticastRoute nulGroupSpec threeSatNics emptyTable).rt ≠ emptyTable ∧
    (addMulticastRoute nulGroupSpec threeSatNics emptyTable).rt.multicastRoutes =
      [sampleRoute] := by
  decide

/-- C4: with a non-empty parseable group, parseable origin and mask, an
`inInterface` that is empty or resolves, and a non-empty `outInterfaces` whose
tokens are pairwise distinct and all resolve, `addMulticastRoute` returns
normally and submits exactly one route; the route has the parsed origin, mask and
group, its input interface is the interface of the inventory named `inInterface`
(none when `inInterface` is empty), and its output interfaces are the interfaces
of the inventory named by the tokens, in token order. -/
theorem explicit_outputs_install_route (self : MulticastConfigurator) (ift : InterfaceTable)
    (rt : Ipv4RoutingTable) (g o m : Ipv4Address) (hg : self.groupAddress ≠ "")
    (pg : Ipv4Address.ofText self.groupAddress = some g)
    (po : Ipv4Address.ofText self.originAddress = some o)
    (pm : Ipv4Address.ofText self.originNetmask = some m)
    (hin : self.inInterface = "" ∨ ∃ ie ∈ ift, ie.interfaceName = self.inInterface)
    (hne : self.outInterfaces ≠ "")
    (hnd : (tokenize self.outInterfaces).Nodup)
    (hres : ∀ t ∈ tokenize self.outInterfaces, ∃ ie ∈ ift, ie.interfaceName = t) :
    ∃ r, (addMulticastRoute self ift rt).thrown = none ∧
      (addMulticastRoute self ift rt).rt.multicastRoutes = rt.multicastRoutes ++ [r] ∧
      r.origin = o ∧ r.originNetmask = m ∧ r.multicastGroup = g ∧
      r.inInterface =
        (if self.inInterface = "" then none
          else ift.findInterfaceByName self.inInterface) ∧
      (self.inInterface ≠ "" →
        ∃ p, r.inInterface = some p ∧ p ∈ ift.refs ∧
          p.entry.interfaceName = self.inInterface) ∧
      r.outInterfaces = (tokenize self.outInterfaces).filterMap ift.findInterfaceByName ∧
      r.outInterfaces.map (fun p => p.entry.interfaceName) = tokenize self.outInterfaces ∧
      ∀ p ∈ r.outInterfaces, p ∈ ift.refs := by
  have hcin : c_str self.inInterface = self.inInterface := c_str_of_resolves hin
  have hcout : c_str self.outInterfaces = self.outInterfaces := c_str_of_tokens_resolve hres
  rw [addMulticastRoute_parsed self ift rt g o m hg (ofText_c_str pg) (ofText_c_str po)
      (ofText_c_str pm),
    inputInterfaceBlock_ok self ift _ _ (by rw [hcin]; exact hin)]
  simp only
  rw [outputInterfacesBlock_explicit self ift _ _ hne, hcout,
    tokenLoop_resolved ift _ _ _ hres hnd (by simp [withInput_initialRoute])]
  simp only [withInput_initialRoute, List.nil_append, resolvedInput, hcin]
  refine ⟨_, trivial, rfl, rfl, rfl, rfl, rfl, ?_, rfl, ?_, ?_⟩
  · intro hne2
    have hex : ∃ ie ∈ ift, ie.interfaceName = self.inInterface := by
      rcases hin with h | h
      · exact absurd h hne2
      · exact h
    obtain ⟨p, hp⟩ := findInterfaceByName_isSome_of_mem hex
    obtain ⟨hp1, hp2⟩ := findInterfaceByName_some hp
    exact ⟨p, by simp [hne2, hp], hp1, hp2⟩
  · exact map_name_filterMap_find ift _ hres
  · intro p hp
    exact mem_refs_of_mem_filterMap_find ift _ p hp

theorem explicit_outputs_install_route_witness :
    sampleSpec.groupAddress ≠ "" ∧ sampleSpec.outInterfaces ≠ "" ∧
    tokenize sampleSpec.outInterfaces = ["satNic1", "satNic2"] ∧
    (∃ r, (addMulticastRoute sampleSpec threeSatNics emptyTable).thrown = none ∧
      (addMulticastRoute sampleSpec threeSatNics emptyTable).rt.multicastRoutes =
        emptyTable.multicastRoutes ++ [r] ∧
      r.origin = ⟨0⟩ ∧ r.originNetmask = ⟨0⟩ ∧ r.multicastGroup = ⟨4009820417⟩ ∧
      r.inInterface =
        (if sampleSpec.inInterface = "" then none
          else threeSatNics.findInterfaceByName sampleSpec.inInterface) ∧
      (sampleSpec.inInterface ≠ "" →
        ∃ p, r.inInterface = some p ∧ p ∈ threeSatNics.refs ∧
          p.entry.interfaceName = sampleSpec.inInterface) ∧
      r.outInterfaces =
        (tokenize sampleSpec.outInterfaces).filterMap threeSatNics.findInterfaceByName ∧
      r.outInterfaces.map (fun p => p.entry.interfaceName) = tokenize sampleSpec.outInterfaces ∧
      ∀ p ∈ r.outInterfaces, p ∈ threeSatNics.refs) ∧
    (addMulticastRoute sampleSpec threeSatNics emptyTable).rt.multicastRoutes =
      [{ origin := ⟨0⟩, originNetmask := ⟨0⟩, multicastGroup := ⟨4009820417⟩,
         inInterface := some ⟨0, sampleInterface "satNic0" 100⟩,
         outInterfaces := [⟨1, sampleInterface "satNic1" 101⟩,
           ⟨2, sampleInterface "satNic2" 102⟩] }] :=
  ⟨by decide, by decide, by decide,
    explicit_outputs_install_route sampleSpec threeSatNics emptyTable
      ⟨4009820417⟩ ⟨0⟩ ⟨0⟩ (by decide) (by decide) (by decide) (by decide)
      (Or.inr (by decide)) (by decide) (by decide) (by decide),
    by decide⟩

/-- C5: with a non-empty parseable group, parseable origin and mask, an
`inInterface` that is empty or resolves, and an empty `outInterfaces`,
`addMulticastRoute` returns normally and submits exactly one route, whose output
interfaces are exactly the interfaces of the inventory whose name starts with
"satNic" (compared character by character, the bare name included), in inventory
order, except the interfaces whose name equals a non-empty `inInterface`. -/
theorem fallback_discovers_satNics (self : MulticastConfigurator) (ift : InterfaceTable)
    (rt : Ipv4RoutingTable) (g o m : Ipv4Address) (hg : self.groupAddress ≠ "")
    (pg : Ipv4Address.ofText self.groupAddress = some g)
    (po : Ipv4Address.ofText self.originAddress = some o)
    (pm : Ipv4Address.ofText self.originNetmask = some m)
    (hin : self.inInterface = "" ∨ ∃ ie ∈ ift, ie.interfaceName = self.inInterface)
    (hout : self.outInterfaces = "") :
    ∃ r, (addMulticastRoute self ift rt).thrown = none ∧
      (addMulticastRoute self ift rt).rt.multicastRoutes = rt.multicastRoutes ++ [r] ∧
      r.outInterfaces =
        ift.refs.filter (fun p =>
          "satNic".data.isPrefixOf p.entry.interfaceName.data &&
            !(decide (self.inInterface ≠ "") &&
              decide (p.entry.interfaceName = self.inInterface))) := by
  have hcin : c_str self.inInterface = self.inInterface := c_str_of_resolves hin
  rw [addMulticastRoute_parsed self ift rt g o m hg (ofText_c_str pg) (ofText_c_str po)
      (ofText_c_str pm),
    inputInterfaceBlock_ok self ift _ _ (by rw [hcin]; exact hin)]
  simp only
  rw [outputInterfacesBlock_fallback self ift _ _ hout (by simp [withInput_initialRoute])]
  simp only [withInput_initialRoute]
  refine ⟨_, trivial, rfl, ?_⟩
  simp only
  congr 1
  funext p
  exact discovered_iff self.inInterface p

theorem fallback_discovers_satNics_witness :
    fallbackSpec.groupAddress ≠ "" ∧ fallbackSpec.inInterface = "satNic0" ∧
    fallbackSpec.outInterfaces = "" ∧
    (∃ r, (addMulticastRoute fallbackSpec threeSatNics emptyTable).thrown = none ∧
      (addMulticastRoute fallbackSpec threeSatNics emptyTable).rt.multicastRoutes =
        emptyTable.multicastRoutes ++ [r] ∧
      r.outInterfaces =
        threeSatNics.refs.filter (fun p =>
          "satNic".data.isPrefixOf p.entry.interfaceName.data &&
            !(decide (fallbackSpec.inInterface ≠ "") &&
              decide (p.entry.interfaceName = fallbackSpec.inInterface)))) ∧
    (addMulticastRoute fallbackSpec threeSatNics emptyTable).rt.multicastRoutes.map
        (fun r => r.outInterfaces.map (fun p => p.entry.interfaceName)) =
      [["satNic1", "satNic2"]] ∧
    (addMulticastRoute wildcardSpec mixedInventory emptyTable).rt.multicastRoutes.map
        (fun r => r.outInterfaces.map (fun p => p.entry.interfaceName)) =
      [["satNic", "satNicA"]] :=
  ⟨by decide, by decide, by decide,
    fallback_discovers_satNics fallbackSpec threeSatNics emptyTable
      ⟨4009820417⟩ ⟨0⟩ ⟨0⟩ (by decide) (by decide) (by decide) (by decide)
      (Or.inr (by decide)) (by decide),
    by decide, by decide⟩

/-- C6: when no interface name of the inventory starts with "satNic", the group is
non-empty and parses, origin and mask parse, and `inInterface` and `outInterfaces`
are both empty, `addMulticastRoute` returns normally, submits exactly one route,
that route has no input and no output interface, and the records emitted include,
at warning level, the one saying that automatic discovery found no interface. -/
theorem fallback_without_satNics_warns (self : MulticastConfigurator) (ift : InterfaceTable)
    (rt : Ipv4RoutingTable) (g o m : Ipv4Address)
    (hno : ∀ ie ∈ ift, "satNic".data.isPrefixOf ie.interfaceName.data = false)
    (hg : self.groupAddress ≠ "")
    (pg : Ipv4Address.ofText self.groupAddress = some g)
    (po : Ipv4Address.ofText self.originAddress = some o)
    (pm : Ipv4Address.ofText self.originNetmask = some m)
    (hin : self.inInterface = "") (hout : self.outInterfaces = "") :
    (addMulticastRoute self ift rt).thrown = none ∧
    (addMulticastRoute self ift rt).rt.multicastRoutes =
      rt.multicastRoutes ++
        [{ origin := o, originNetmask := m, multicastGroup := g, inInterface := none,
           outInterfaces := [] }] ∧
    (addMulticastRoute self ift rt).log =
      [LogMsg.installing o m g "" "", LogMsg.noInInterface, LogMsg.outInterfacesEmpty,
        LogMsg.discoveryFoundNone, LogMsg.installed (rt.multicastRoutes.length + 1)] ∧
    LogMsg.discoveryFoundNone ∈ (addMulticastRoute self ift rt).log ∧
    LogMsg.discoveryFoundNone.level = LogLevel.warn := by
  have hnone : ift.refs.filter (discovered self.inInterface) = [] := by
    rw [List.filter_eq_nil_iff]
    intro p hp
    have := hno p.entry (entry_mem_of_mem_refs hp)
    simp [discovered, rfindAtZero, this]
  rw [addMulticastRoute_parsed self ift rt g o m hg (ofText_c_str pg) (ofText_c_str po)
      (ofText_c_str pm),
    inputInterfaceBlock_ok self ift _ _ (Or.inl hin)]
  simp only
  rw [outputInterfacesBlock_fallback self ift _ _ hout (by simp [withInput_initialRoute]),
    hnone]
  simp [withInput_initialRoute, inputRecord, resolvedInput, hin, hout,
    Ipv4RoutingTable.addMulticastRoute, Ipv4RoutingTable.getNumMulticastRoutes, LogMsg.level]

theorem fallback_without_satNics_warns_witness :
    (∀ ie ∈ twoEths, "satNic".data.isPrefixOf ie.interfaceName.data = false) ∧
    wildcardSpec.groupAddress ≠ "" ∧ wildcardSpec.inInterface = "" ∧
    wildcardSpec.outInterfaces = "" ∧
    (addMulticastRoute wildcardSpec twoEths emptyTable).thrown = none ∧
    (addMulticastRoute wildcardSpec twoEths emptyTable).rt.multicastRoutes =
      emptyTable.multicastRoutes ++
        [{ origin := ⟨0⟩, originNetmask := ⟨0⟩, multicastGroup := ⟨4009820417⟩,
           inInterface := none, outInterfaces := [] }] ∧
    (addMulticastRoute wildcardSpec twoEths emptyTable).log =
      [LogMsg.installing ⟨0⟩ ⟨0⟩ ⟨4009820417⟩ "" "", LogMsg.noInInterface,
        LogMsg.outInterfacesEmpty, LogMsg.discoveryFoundNone,
        LogMsg.installed (emptyTable.multicastRoutes.length + 1)] ∧
    LogMsg.discoveryFoundNone ∈ (addMulticastRoute wildcardSpec twoEths emptyTable).log ∧
    LogMsg.discoveryFoundNone.level = LogLevel.warn :=
  ⟨by decide, by decide, by decide, by decide,
    fallback_without_satNics_warns wildcardSpec twoEths emptyTable
      ⟨4009820417⟩ ⟨0⟩ ⟨0⟩ (by decide) (by decide) (by decide) (by decide) (by decide)
      (by decide) (by decide)⟩

/-- C8, as amended: a route that `addMulticastRoute` submits to the routing table
has no dangling interface reference: its input interface, when present, is an
interface of the inventory whose name equals the C string of `inInterface` (its
text before the first NUL character); each of its output interfaces is an
interface of the inventory, named by a token of the C string of `outInterfaces`
when that text is non-empty and carrying the "satNic" prefix when it is empty;
and its group is the parsed value of the C string of the group text, which is
non-empty. -/
theorem submitted_route_is_resolved (self : MulticastConfigurator) (ift : InterfaceTable)
    (rt : Ipv4RoutingTable) (r : Ipv4MulticastRoute)
    (h : (addMulticastRoute self ift rt).rt.multicastRoutes = rt.multicastRoutes ++ [r]) :
    (∀ p, r.inInterface = some p →
      p ∈ ift.refs ∧ p.entry ∈ ift ∧ p.entry.interfaceName = c_str self.inInterface) ∧
    (∀ q ∈ r.outInterfaces, q ∈ ift.refs ∧ q.entry ∈ ift ∧
      ((self.outInterfaces ≠ "" ∧
          q.entry.interfaceName ∈ tokenize (c_str self.outInterfaces)) ∨
        (self.outInterfaces = "" ∧
          "satNic".data.isPrefixOf q.entry.interfaceName.data = true))) ∧
    self.groupAddress ≠ "" ∧
    Ipv4Address.ofText (c_str self.groupAddress) = some r.multicastGroup := by
  rcases addMulticastRoute_cases self ift with hc | hc
  · rw [hc rt] at h
    have := congrArg List.length h
    simp at this
  · obtain ⟨g, o, m, log1, r1, log2, r2, hg, pg, _, _, h1, h2, hall⟩ := hc
    rw [hall rt] at h
    simp only [Ipv4RoutingTable.addMulticastRoute, List.append_cancel_left_eq, List.cons.injEq,
      and_true] at h
    subst h
    have hi := inputInterfaceBlock_ok_inv self ift _ _ _ _ h1
    have ho := outputInterfacesBlock_ok_inv self ift r1 r2 log1 log2
      (by rw [hi.2.2.2.1]; rfl) h2
    refine ⟨?_, ?_, hg, ?_⟩
    · intro p hp
      rw [ho.2.2.2.1] at hp
      rcases hi.2.2.2.2 with hi2 | hi2
      · rw [hi2] at hp
        exact Option.noConfusion hp
      · obtain ⟨p2, hp2, hmem, hname⟩ := hi2
        rw [hp2] at hp
        have hpe : p2 = p := Option.some.inj hp
        subst hpe
        exact ⟨hmem, entry_mem_of_mem_refs hmem, hname⟩
    · intro q hq
      have := ho.2.2.2.2 q hq
      exact ⟨this.1, entry_mem_of_mem_refs this.1, this.2⟩
    · rw [pg, ho.2.2.1, hi.2.2.1]
      rfl

theorem submitted_route_is_resolved_witness :
    (addMulticastRoute nulSpec threeSatNics oneRouteTable).rt.multicastRoutes =
      oneRouteTable.multicastRoutes ++ [oneOutputRoute] ∧
    ((∀ p, oneOutputRoute.inInterface = some p →
      p ∈ threeSatNics.refs ∧ p.entry ∈ threeSatNics ∧
        p.entry.interfaceName = c_str nulSpec.inInterface) ∧
    (∀ q ∈ oneOutputRoute.outInterfaces, q ∈ threeSatNics.refs ∧ q.entry ∈ threeSatNics ∧
      ((nulSpec.outInterfaces ≠ "" ∧
          q.entry.interfaceName ∈ tokenize (c_str nulSpec.outInterfaces)) ∨
        (nulSpec.outInterfaces = "" ∧
          "satNic".data.isPrefixOf q.entry.interfaceName.data = true))) ∧
    nulSpec.groupAddress ≠ "" ∧
    Ipv4Address.ofText (c_str nulSpec.groupAddress) = some oneOutputRoute.multicastGroup) :=
  ⟨by decide,
    submitted_route_is_resolved nulSpec threeSatNics oneRouteTable oneOutputRoute
      (by decide)⟩

/-- Counterexample to C8 as the claim states it: on a specification whose group, input and
output texts each hold a NUL character, `addMulticastRoute` submits a route whose
input interface satNic0 has a name different from `inInterface`, whose output
interface satNic1 is named by no token of `outInterfaces`, and whose group is not
the parsed value of the group text, which does not parse. -/
theorem submitted_route_claim_refuted :
    (addMulticastRoute nulSpec threeSatNics emptyTable).rt.multicastRoutes =
      emptyTable.multicastRoutes ++ [oneOutputRoute] ∧
    oneOutputRoute.inInterface = some ⟨0, sampleInterface "satNic0" 100⟩ ∧
    (sampleInterface "satNic0" 100).interfaceName ≠ nulSpec.inInterface ∧
    (⟨1, sampleInterface "satNic1" 101⟩ : InterfaceRef) ∈ oneOutputRoute.outInterfaces ∧
    nulSpec.outInterfaces ≠ "" ∧
    (sampleInterface "satNic1" 101).interfaceName ∉ tokenize nulSpec.outInterfaces ∧
    Ipv4Address.ofText nulSpec.groupAddress ≠ some oneOutputRoute.multicastGroup := by
  decide

/-- C9: installation is not idempotent: when `addMulticastRoute` has submitted a
route (the routing table changed, which happens only on a normal return), running
it again with the same specification and
inventory on the resulting routing table returns normally and submits a second
route equal to the first, so that the table holds the two equal routes after its
earlier ones and its multicast route count has grown by two. -/
theorem second_install_duplicates_route (self : MulticastConfigurator) (ift : InterfaceTable)
    (rt : Ipv4RoutingTable) (hsub : (addMulticastRoute self ift rt).rt ≠ rt) :
    ∃ r, (addMulticastRoute self ift rt).thrown = none ∧
      (addMulticastRoute self ift rt).rt.multicastRoutes = rt.multicastRoutes ++ [r] ∧
      (addMulticastRoute self ift (addMulticastRoute self ift rt).rt).thrown = none ∧
      (addMulticastRoute self ift (addMulticastRoute self ift rt).rt).rt.multicastRoutes =
        rt.multicastRoutes ++ [r, r] ∧
      (addMulticastRoute self ift (addMulticastRoute self ift rt).rt).rt.getNumMulticastRoutes =
        rt.getNumMulticastRoutes + 2 := by
  rcases addMulticastRoute_cases self ift with hc | hc
  · exact absurd (hc rt) hsub
  · obtain ⟨g, o, m, log1, r1, log2, r2, _, _, _, _, _, _, hall⟩ := hc
    refine ⟨r2, ?_, ?_, ?_, ?_, ?_⟩
    · rw [hall rt]
    · rw [hall rt]
      rfl
    · rw [hall]
    · rw [hall, hall rt]
      simp [Ipv4RoutingTable.addMulticastRoute]
    · rw [hall, hall rt]
      simp [Ipv4RoutingTable.addMulticastRoute, Ipv4RoutingTable.getNumMulticastRoutes]

theorem second_install_duplicates_route_witness :
    (addMulticastRoute sampleSpec threeSatNics oneRouteTable).rt ≠ oneRouteTable ∧
    ∃ r, (addMulticastRoute sampleSpec threeSatNics oneRouteTable).thrown = none ∧
      (addMulticastRoute sampleSpec threeSatNics oneRouteTable).rt.multicastRoutes =
        oneRouteTable.multicastRoutes ++ [r] ∧
      (addMulticastRoute sampleSpec threeSatNics
        (addMulticastRoute sampleSpec threeSatNics oneRouteTable).rt).thrown = none ∧
      (addMulticastRoute sampleSpec threeSatNics
        (addMulticastRoute sampleSpec threeSatNics oneRouteTable).rt).rt.multicastRoutes =
        oneRouteTable.multicastRoutes ++ [r, r] ∧
      (addMulticastRoute sampleSpec threeSatNics
        (addMulticastRoute sampleSpec threeSatNics
          oneRouteTable).rt).rt.getNumMulticastRoutes =
        oneRouteTable.getNumMulticastRoutes + 2 :=
  ⟨by decide,
    second_install_duplicates_route sampleSpec threeSatNics oneRouteTable (by decide)⟩

/-- C10: the choice between the token loop and automatic discovery is made on the
raw `outInterfaces` text: with a non-empty parseable group, parseable origin and
mask, an `inInterface` that is empty or resolves, and an `outInterfaces` that is
non-empty but holds only space characters, `addMulticastRoute` returns normally
and submits one route with zero output interfaces, whatever the inventory holds;
no record of automatic discovery is emitted (neither its announcement, nor an
automatically added interface, nor the empty-discovery warning), and every record
emitted is informational. -/
theorem blank_outputs_skip_discovery (self : MulticastConfigurator) (ift : InterfaceTable)
    (rt : Ipv4RoutingTable) (g o m : Ipv4Address) (hg : self.groupAddress ≠ "")
    (pg : Ipv4Address.ofText self.groupAddress = some g)
    (po : Ipv4Address.ofText self.originAddress = some o)
    (pm : Ipv4Address.ofText self.originNetmask = some m)
    (hin : self.inInterface = "" ∨ ∃ ie ∈ ift, ie.interfaceName = self.inInterface)
    (hne : self.outInterfaces ≠ "")
    (hsp : ∀ c ∈ self.outInterfaces.data, c = ' ') :
    ∃ r, (addMulticastRoute self ift rt).thrown = none ∧
      (addMulticastRoute self ift rt).rt.multicastRoutes = rt.multicastRoutes ++ [r] ∧
      r.outInterfaces = [] ∧
      LogMsg.discoveryFoundNone ∉ (addMulticastRoute self ift rt).log ∧
      LogMsg.outInterfacesEmpty ∉ (addMulticastRoute self ift rt).log ∧
      (∀ n i, LogMsg.autoAddedOutputInterface n i ∉ (addMulticastRoute self ift rt).log) ∧
      ∀ msg ∈ (addMulticastRoute self ift rt).log, msg.level = LogLevel.info := by
  have htok : tokenize self.outInterfaces = [] := tokenizeAux_spaces _ hsp
  have hcin : c_str self.inInterface = self.inInterface := c_str_of_resolves hin
  rw [addMulticastRoute_parsed self ift rt g o m hg (ofText_c_str pg) (ofText_c_str po)
      (ofText_c_str pm),
    inputInterfaceBlock_ok self ift _ _ (by rw [hcin]; exact hin)]
  simp only
  rw [outputInterfacesBlock_explicit self ift _ _ hne, c_str_of_spaces hsp, htok]
  simp only [tokenLoop, withInput_initialRoute]
  refine ⟨_, trivial, rfl, rfl, ?_⟩
  unfold inputRecord
  cases resolvedInput self ift <;> simp [LogMsg.level]

theorem blank_outputs_skip_discovery_witness :
    blankOutputSpec.groupAddress ≠ "" ∧ blankOutputSpec.outInterfaces ≠ "" ∧
    (∀ c ∈ blankOutputSpec.outInterfaces.data, c = ' ') ∧
    (∃ ie ∈ threeSatNics, "satNic".data.isPrefixOf ie.interfaceName.data = true ∧
      ie.interfaceName ≠ blankOutputSpec.inInterface) ∧
    ∃ r, (addMulticastRoute blankOutputSpec threeSatNics emptyTable).thrown = none ∧
      (addMulticastRoute blankOutputSpec threeSatNics emptyTable).rt.multicastRoutes =
        emptyTable.multicastRoutes ++ [r] ∧
      r.outInterfaces = [] ∧
      LogMsg.discoveryFoundNone ∉
        (addMulticastRoute blankOutputSpec threeSatNics emptyTable).log ∧
      LogMsg.outInterfacesEmpty ∉
        (addMulticastRoute blankOutputSpec threeSatNics emptyTable).log ∧
      (∀ n i, LogMsg.autoAddedOutputInterface n i ∉
        (addMulticastRoute blankOutputSpec threeSatNics emptyTable).log) ∧
      ∀ msg ∈ (addMulticastRoute blankOutputSpec threeSatNics emptyTable).log,
        msg.level = LogLevel.info :=
  ⟨by decide, by decide, by decide, by decide,
    blank_outputs_skip_discovery blankOutputSpec threeSatNics emptyTable
      ⟨4009820417⟩ ⟨0⟩ ⟨0⟩ (by decide) (by decide) (by decide) (by decide)
      (Or.inr (by decide)) (by decide) (by decide)⟩

end inet
